import Mathlib

/-!
# DiagnostiQ — formal model of the session/message persistence core and the
AI gateway client, with the spec's testable properties settled against it.

Shallow embedding conventions:
* `src/backend/api_client.py` — the response-handling half of
  `chat_with_industrial_ai` is modelled as a pure function over an abstract
  HTTP outcome (`HttpResult`).  Python floats are modelled as rationals;
  Python's `round(x, 2)` (round-half-to-even) is `round2`.  Python exceptions
  are modelled as `Except String`, the error string being the `RuntimeError`
  message the code builds.
* `src/backend/database.py` — the SQLite store is modelled as an explicit
  state (`DB`): the `sessions` and `messages` relations as lists, SQLite's
  AUTOINCREMENT counter as `next_msg_id`, and `CURRENT_TIMESTAMP` as a
  logical clock (`clock`, strictly increasing).  `ORDER BY` is insertion
  sort on the relevant key.  A JSON usage dictionary is a finite list of
  string-keyed numeric entries (`json.dumps`/`json.loads` round-trip is the
  identity on such values).  Message `timestamp` columns are not modelled:
  no modelled query reads them.
* `src/app.py` — the chat-submission branch of `main` is modelled as
  `submit`, with the gateway call abstracted by its `Except` outcome and the
  Streamlit UI effects (`st.toast` / `st.error`) reflected in
  `SubmitResult`.
-/

namespace DiagnostiQ

/-! ## Rounding (Python `round(x, 2)`)

Python's built-in `round` rounds half to even.  `roundHalfEven q` is that
rounding of a rational to an integer; `round2` rounds to two decimals as
`round(x, 2)` does. -/

def roundHalfEven (q : ℚ) : ℤ :=
  let n := q.num
  let d : ℤ := q.den
  let f := n.fdiv d          -- ⌊q⌋, computed on the reduced fraction
  let r := n - f * d         -- numerator of the fractional part: q - ⌊q⌋ = r / d
  if 2 * r < d then f        -- fractional part < 1/2
  else if d < 2 * r then f + 1
  else if f % 2 = 0 then f else f + 1

def round2 (q : ℚ) : ℚ := (roundHalfEven (q * 100) : ℚ) / 100

/-! ## AI Gateway Client (`src/backend/api_client.py`)

`UsageMetrics` and `ChatResponse` mirror the Pydantic models of
`src/backend/schemas.py` (token counts are ints, latency/throughput
floats). -/

structure UsageMetrics where
  prompt_tokens : ℕ
  completion_tokens : ℕ
  total_tokens : ℕ
  latency : ℚ
  throughput : ℚ
deriving DecidableEq, Repr

structure ChatResponse where
  content : String
  usage : UsageMetrics
deriving DecidableEq, Repr

/-- The `usage` object of the gateway's JSON response: each count may be
absent (`dict.get` with default `0` in the code). -/
structure RespUsage where
  prompt_tokens : Option ℕ
  completion_tokens : Option ℕ
  total_tokens : Option ℕ
deriving DecidableEq, Repr

/-- A successfully JSON-parsed gateway response body.
`choices` is `choices[0].message.content` when the `choices` key is present
(and well-formed), `content` the top-level `content` key, `usage` the
optional usage object. -/
structure RespData where
  choices : Option String
  content : Option String
  usage : Option RespUsage
deriving DecidableEq, Repr

deriving instance DecidableEq for Except

/-- Outcome of `requests.post` + `response.json()`:
* `response status body pdata` — an HTTP response arrived; `pdata` is the
  result of JSON-parsing `body` (`Except.error msg` models a
  `json` decode exception with message `msg`);
* `failure cause` — the transport raised (network error, …) with message
  `cause`. -/
inductive HttpResult where
  | response (status : ℕ) (body : String) (pdata : Except String RespData)
  | failure (cause : String)
deriving DecidableEq, Repr

/-- Default for `data.get("usage", {...})` in the code: all counts `0`. -/
def defaultRawUsage : RespUsage := ⟨some 0, some 0, some 0⟩

/-- Answer-text extraction (`api_client.py`, lines 84–89): prefer
`choices[0].message.content`, then top-level `content`, else the
placeholder. -/
def chatAnswer (data : RespData) : String :=
  match data.choices with
  | some c => c
  | none =>
      match data.content with
      | some c => c
      | none => "Error: No content returned."

/-- `total_tokens = raw_usage.get('total_tokens', 0)` with
`raw_usage = data.get("usage", {...zeros...})` (`api_client.py`,
lines 93–94). -/
def chatTotal (data : RespData) : ℕ :=
  (data.usage.getD defaultRawUsage).total_tokens.getD 0

/-- Response handling of `chat_with_industrial_ai`
(`src/backend/api_client.py`, lines 63–117), given the measured elapsed
seconds and the HTTP outcome.  Every failure path exits through the
function's final `except Exception as e: raise RuntimeError(f"Connection
failed: {str(e)}")` — including the `raise RuntimeError(f"API Error:
{response.text}")` for a non-200 status, which that handler catches and
re-wraps. -/
def chat_with_industrial_ai (elapsed : ℚ) (http : HttpResult) :
    Except String ChatResponse :=
  match http with
  | .failure cause => .error ("Connection failed: " ++ cause)
  | .response status body pdata =>
      let latency := round2 elapsed
      if status ≠ 200 then
        -- `raise RuntimeError(f"API Error: {response.text}")`, caught by the
        -- enclosing `except` and re-raised with the "Connection failed: "
        -- prefix.
        .error ("Connection failed: " ++ ("API Error: " ++ body))
      else
        match pdata with
        | .error e => .error ("Connection failed: " ++ e)
        | .ok data =>
            let raw_usage := data.usage.getD defaultRawUsage
            let total_tokens := chatTotal data
            let tps : ℚ :=
              if 0 < latency then round2 ((total_tokens : ℚ) / latency) else 0
            .ok { content := chatAnswer data
                  usage := { prompt_tokens := raw_usage.prompt_tokens.getD 0
                             completion_tokens := raw_usage.completion_tokens.getD 0
                             total_tokens := total_tokens
                             latency := latency
                             throughput := tps } }

/-! ## Persistence Store (`src/backend/database.py`)

A row of the `sessions` table and a row of the `messages` table.  A JSON
usage dictionary (`usage_data` after `json.loads`) is a list of
string-keyed numeric entries. -/

/-- JSON dictionary of numeric values, as produced by
`UsageMetrics.model_dump()` or passed directly to `add_message`. -/
abbrev UsageDict := List (String × ℚ)

structure Session where
  id : String
  title : String
  image_path : Option String
  mode : String
  created_at : ℕ
deriving DecidableEq, Repr

structure Message where
  id : ℕ
  session_id : String
  role : String
  content : String
  usage_data : Option UsageDict
deriving DecidableEq, Repr

/-- The SQLite database state: the two relations, the `AUTOINCREMENT`
counter for `messages.id`, and a logical clock standing in for
`CURRENT_TIMESTAMP` (strictly increasing across inserts). -/
structure DB where
  sessions : List Session
  messages : List Message
  next_msg_id : ℕ
  clock : ℕ
deriving DecidableEq, Repr

/-- The freshly initialised store (`init_db` on a new file): both tables
empty, `AUTOINCREMENT` starting at 1. -/
def emptyDB : DB := ⟨[], [], 1, 0⟩

/-- `create_session` (`database.py`, lines 55–66): `INSERT OR IGNORE` —
inserts the row only when no session with this id exists.  `image_path` is
not in the column list (NULL) and `created_at` takes the timestamp
default. -/
def create_session (db : DB) (session_id : String)
    (title : String := "New Inspection") (mode : String := "General Analysis") :
    DB :=
  if db.sessions.any (fun s => s.id == session_id) then db
  else { db with
         sessions := db.sessions ++ [⟨session_id, title, none, mode, db.clock⟩]
         clock := db.clock + 1 }

/-- Python truthiness applied to the optional `usage` dictionary:
`json.dumps(usage) if usage else None` stores `None` both for `None` and
for an empty dict `{}`. -/
def normUsage : Option UsageDict → Option UsageDict
  | some u => if u ≠ [] then some u else none
  | none => none

/-- The auto-rename title: `(content[:30] + '...') if len(content) > 30 else
content`. -/
def autoTitle (content : String) : String :=
  if content.length > 30 then content.take 30 ++ "..." else content

/-- `add_message` (`database.py`, lines 118–143): inserts the message row
with the next `AUTOINCREMENT` id, then, when `role == "user"`, runs
`UPDATE sessions SET title = ? WHERE id = ? AND title = 'New Inspection'`
with the truncated content as the new title. -/
def add_message (db : DB) (session_id role content : String)
    (usage : Option UsageDict := none) : DB :=
  let db1 : DB :=
    { db with
      messages := db.messages ++
        [⟨db.next_msg_id, session_id, role, content, normUsage usage⟩]
      next_msg_id := db.next_msg_id + 1 }
  if role = "user" then
    { db1 with
      sessions := db1.sessions.map (fun s =>
        if s.id = session_id ∧ s.title = "New Inspection" then
          { s with title := autoTitle content }
        else s) }
  else db1

/-- One entry of the history list built by `get_session_history`: the
`{"role": …, "content": …}` dict, with the `"usage"` key present exactly
when the stored `usage_data` was non-NULL. -/
structure HistoryEntry where
  role : String
  content : String
  usage : Option UsageDict
deriving DecidableEq, Repr

def rowToHistory (m : Message) : HistoryEntry := ⟨m.role, m.content, m.usage_data⟩

/-- `get_session_history` (`database.py`, lines 173–191):
`SELECT * FROM messages WHERE session_id = ? ORDER BY id ASC`, then each
row becomes a dict with `usage` parsed back from JSON when present. -/
def get_session_history (db : DB) (session_id : String) : List HistoryEntry :=
  (((db.messages.filter (fun m => m.session_id == session_id))).insertionSort
      (fun a b => a.id ≤ b.id)).map rowToHistory

/-- `get_all_sessions` (`database.py`, lines 145–171): sessions having at
least one message, or an image, or a non-default title, ordered by
`created_at DESC`. -/
def get_all_sessions (db : DB) : List Session :=
  ((db.sessions.filter (fun s =>
      db.messages.any (fun m => m.session_id == s.id) ||
      s.image_path.isSome ||
      s.title != "New Inspection"))).insertionSort
    (fun a b => b.created_at ≤ a.created_at)

/-- `get_session_meta` (`database.py`, lines 105–116): point lookup. -/
def get_session_meta (db : DB) (session_id : String) : Option Session :=
  db.sessions.find? (fun s => s.id == session_id)

/-- `update_session_title` (`database.py`, lines 193–202) applied to the
rows, when the UPDATE itself succeeds. -/
def setTitleRows (rows : List Session) (session_id new_title : String) :
    List Session :=
  rows.map (fun s => if s.id = session_id then { s with title := new_title } else s)

/-! ### Schema-evolution behaviour of the three single-field updates

`update_session_mode`, `update_session_image` and `update_session_title`
differ precisely in how they react to the expected column being absent
(`sqlite3.OperationalError` on the UPDATE).  `SessTable` carries the
`sessions` relation together with which of the three mutable columns
exist, so the reaction is part of the model. -/

structure SessTable where
  hasModeCol : Bool
  hasImageCol : Bool
  hasTitleCol : Bool
  rows : List Session
deriving DecidableEq, Repr

/-- What a single-field update did. -/
inductive UpdateOutcome where
  /-- the first UPDATE succeeded -/
  | updated
  /-- the first UPDATE failed, the column was added, and the retried
  UPDATE succeeded -/
  | columnAddedThenUpdated
  /-- the failure was swallowed and nothing was changed -/
  | gaveUpSilently
deriving DecidableEq, Repr

/-- `update_session_mode` (`database.py`, lines 68–89): on
`sqlite3.OperationalError` it runs `ALTER TABLE sessions ADD COLUMN mode
TEXT DEFAULT 'General Analysis'` and retries the UPDATE once (the inner
`except: pass` is unreachable here: adding a genuinely missing column
succeeds). -/
def update_session_mode (t : SessTable) (session_id mode : String) :
    SessTable × UpdateOutcome :=
  if t.hasModeCol then
    ({ t with rows := t.rows.map (fun s =>
        if s.id = session_id then { s with mode := mode } else s) },
     .updated)
  else
    ({ t with
       hasModeCol := true
       rows := (t.rows.map (fun s => { s with mode := "General Analysis" })).map
         (fun s => if s.id = session_id then { s with mode := mode } else s) },
     .columnAddedThenUpdated)

/-- `update_session_image` (`database.py`, lines 91–103): the
`except sqlite3.OperationalError: pass` swallows the failure — no ALTER,
no retry, nothing written. -/
def update_session_image (t : SessTable) (session_id image_path : String) :
    SessTable × UpdateOutcome :=
  if t.hasImageCol then
    ({ t with rows := t.rows.map (fun s =>
        if s.id = session_id then { s with image_path := some image_path } else s) },
     .updated)
  else (t, .gaveUpSilently)

/-- `update_session_title` (`database.py`, lines 193–202): no handler at
all — a missing column makes the `sqlite3.OperationalError` propagate to
the caller. -/
def update_session_title (t : SessTable) (session_id new_title : String) :
    Except String (SessTable × UpdateOutcome) :=
  if t.hasTitleCol then
    .ok ({ t with rows := setTitleRows t.rows session_id new_title }, .updated)
  else .error "sqlite3.OperationalError: no such column: title"

/-- `UsageMetrics.model_dump()` (`src/app.py`, line 229): the five fields
in declaration order, as a JSON dictionary. -/
def usageToDict (m : UsageMetrics) : UsageDict :=
  [("prompt_tokens", (m.prompt_tokens : ℚ)),
   ("completion_tokens", (m.completion_tokens : ℚ)),
   ("total_tokens", (m.total_tokens : ℚ)),
   ("latency", m.latency),
   ("throughput", m.throughput)]

/-! ## Session Orchestrator (`src/app.py`, chat-input branch of `main`) -/

/-- The user-visible outcome of one chat submission. -/
inductive SubmitResult where
  /-- `st.toast("⚠️ ERR: NO VISUAL INPUT DETECTED", …)` — no image active -/
  | rejectedNoImage
  /-- assistant answer rendered and persisted -/
  | answered
  /-- `st.error(f"SYSTEM FAILURE: {str(e)}")` — the exception was caught -/
  | failed (notice : String)
deriving DecidableEq, Repr

/-- The chat-input branch of `main` (`src/app.py`, lines 182–239), given
the active session, the in-memory message list (`st.session_state.messages`),
whether an image is active, the prompt, and the outcome of the gateway call
(`chat_with_industrial_ai` abstracted by its `Except` result, which also
covers the image-preparation code inside the same `try`).  Returns the new
database, the new in-memory list, and the UI outcome. -/
def submit (db : DB) (session_id : String) (stMsgs : List HistoryEntry)
    (activeImage : Option String) (prompt : String)
    (gateway : Except String ChatResponse) :
    DB × List HistoryEntry × SubmitResult :=
  match activeImage with
  | none => (db, stMsgs, .rejectedNoImage)
  | some _ =>
      let stMsgs1 := stMsgs ++ [⟨"user", prompt, none⟩]
      let db1 := add_message db session_id "user" prompt none
      match gateway with
      | .error e => (db1, stMsgs1, .failed ("SYSTEM FAILURE: " ++ e))
      | .ok r =>
          let usage_dict := usageToDict r.usage
          let db2 := add_message db1 session_id "assistant" r.content (some usage_dict)
          (db2, stMsgs1 ++ [⟨"assistant", r.content, some usage_dict⟩], .answered)

/-- A batch of `add_message` calls for one session, in order: the repeated
appends of the orchestrator over a session's lifetime. -/
def addAll (db : DB) (session_id : String) :
    List (String × String × Option UsageDict) → DB
  | [] => db
  | x :: rest => addAll (add_message db session_id x.1 x.2.1 x.2.2) session_id rest

instance : IsTotal Session (fun a b => b.created_at ≤ a.created_at) :=
  ⟨fun a b => Nat.le_total b.created_at a.created_at⟩

instance : IsTrans Session (fun a b => b.created_at ≤ a.created_at) :=
  ⟨fun _ _ _ hab hbc => Nat.le_trans hbc hab⟩

/-! ## Sample data used by the witnesses and counterexamples -/

def sessA : Session := ⟨"a", "New Inspection", none, "General Analysis", 0⟩

def sessB : Session := ⟨"b", "New Inspection", some "img.png", "General Analysis", 1⟩

def dbAB : DB := ⟨[sessA, sessB], [], 1, 2⟩

/-- A store holding one untouched default session `"s"`. -/
def dbS : DB := ⟨[⟨"s", "New Inspection", none, "General Analysis", 0⟩], [], 1, 1⟩

/-- A `sessions` table created by an old version: none of the three mutable
columns exist. -/
def tblOld : SessTable :=
  ⟨false, false, false, [⟨"s", "New Inspection", none, "General Analysis", 0⟩]⟩

def items7 : List (String × String × Option UsageDict) :=
  [("user", "hi", none), ("assistant", "All good.", some [("total_tokens", 5)])]

/-- A concrete metrics value for round-trip checks. -/
def um0 : UsageMetrics := ⟨10, 20, 30, 2, 15⟩

/-- A parsed 200-response: top-level `content` `"OK"`, usage with
`total_tokens = 100`. -/
def d100 : RespData := ⟨none, some "OK", some ⟨some 0, some 0, some 100⟩⟩

/-- The `ChatResponse` the client builds from `d100` when the measured
elapsed time is 2 seconds, with its metrics still in unevaluated form. -/
def r100 : ChatResponse :=
  { content := chatAnswer d100
    usage := { prompt_tokens := (d100.usage.getD defaultRawUsage).prompt_tokens.getD 0
               completion_tokens := (d100.usage.getD defaultRawUsage).completion_tokens.getD 0
               total_tokens := chatTotal d100
               latency := round2 2
               throughput :=
                 if 0 < round2 2 then round2 ((chatTotal d100 : ℚ) / round2 2) else 0 } }

/-! ## Store invariants and basic lemmas -/

/-- Invariant maintained by the store: every message id is below the
`AUTOINCREMENT` counter, and the `messages` relation is strictly ordered
by id (rows are only ever appended with a fresh, larger id). -/
def WellFormed (db : DB) : Prop :=
  (∀ m ∈ db.messages, m.id < db.next_msg_id) ∧
  db.messages.Pairwise (fun a b => a.id < b.id)

instance : DecidablePred WellFormed := fun db => by
  unfold WellFormed; infer_instance

theorem add_message_messages (db : DB) (sid role content : String)
    (u : Option UsageDict) :
    (add_message db sid role content u).messages =
      db.messages ++ [⟨db.next_msg_id, sid, role, content, normUsage u⟩] := by
  unfold add_message
  split <;> rfl

theorem add_message_next_msg_id (db : DB) (sid role content : String)
    (u : Option UsageDict) :
    (add_message db sid role content u).next_msg_id = db.next_msg_id + 1 := by
  unfold add_message
  split <;> rfl

theorem WellFormed.add_message (hwf : WellFormed db)
    (sid role content : String) (u : Option UsageDict) :
    WellFormed (DiagnostiQ.add_message db sid role content u) := by
  obtain ⟨hbound, hsorted⟩ := hwf
  constructor
  · intro m hm
    rw [add_message_messages] at hm
    rw [add_message_next_msg_id]
    rcases List.mem_append.mp hm with h | h
    · exact Nat.lt_succ_of_lt (hbound m h)
    · simp only [List.mem_singleton] at h
      subst h
      exact Nat.lt_succ_self _
  · rw [add_message_messages]
    refine List.pairwise_append.mpr ⟨hsorted, List.pairwise_singleton _ _, ?_⟩
    intro a ha b hb
    simp only [List.mem_singleton] at hb
    subst hb
    exact hbound a ha

theorem WellFormed.sorted_filter (hwf : WellFormed db) (p : Message → Bool) :
    (db.messages.filter p).Sorted (fun a b => a.id ≤ b.id) :=
  (hwf.2.filter p).imp Nat.le_of_lt

theorem get_session_history_eq (hwf : WellFormed db) (sid : String) :
    get_session_history db sid =
      (db.messages.filter (fun m => m.session_id == sid)).map rowToHistory := by
  unfold get_session_history
  rw [List.Sorted.insertionSort_eq (hwf.sorted_filter _)]

theorem get_session_history_add (hwf : WellFormed db)
    (sid role content : String) (u : Option UsageDict) :
    get_session_history (add_message db sid role content u) sid =
      get_session_history db sid ++ [⟨role, content, normUsage u⟩] := by
  rw [get_session_history_eq (hwf.add_message sid role content u),
      get_session_history_eq hwf, add_message_messages, List.filter_append,
      List.map_append]
  simp [rowToHistory]

theorem add_message_sessions_user (db : DB) (sid content : String)
    (u : Option UsageDict) :
    (add_message db sid "user" content u).sessions =
      db.sessions.map (fun s =>
        if s.id = sid ∧ s.title = "New Inspection" then
          { s with title := autoTitle content }
        else s) := by
  unfold add_message
  rw [if_pos rfl]

theorem WellFormed.addAll (hwf : WellFormed db) (sid : String)
    (items : List (String × String × Option UsageDict)) :
    WellFormed (DiagnostiQ.addAll db sid items) := by
  induction items generalizing db with
  | nil => exact hwf
  | cons x rest ih => exact ih (hwf.add_message sid x.1 x.2.1 x.2.2)

theorem addAll_history (hwf : WellFormed db) (sid : String)
    (items : List (String × String × Option UsageDict)) :
    get_session_history (addAll db sid items) sid =
      get_session_history db sid ++
        items.map (fun x => ⟨x.1, x.2.1, normUsage x.2.2⟩) := by
  induction items generalizing db with
  | nil => simp [addAll]
  | cons x rest ih =>
      rw [addAll, ih (hwf.add_message sid x.1 x.2.1 x.2.2),
        get_session_history_add hwf, List.map_cons, List.append_assoc,
        List.singleton_append]

theorem addAll_messages_prefix (db : DB) (sid : String)
    (items : List (String × String × Option UsageDict)) :
    db.messages <+: (addAll db sid items).messages := by
  induction items generalizing db with
  | nil => exact List.prefix_refl _
  | cons x rest ih =>
      refine List.IsPrefix.trans ?_ (ih (add_message db sid x.1 x.2.1 x.2.2))
      rw [add_message_messages]
      exact List.prefix_append _ _

theorem WellFormed.filter_ids_increasing (hwf : WellFormed db)
    (p : Message → Bool) :
    List.Pairwise (· < ·) ((db.messages.filter p).map Message.id) :=
  List.pairwise_map.mpr (hwf.2.filter p)

theorem chat_success_eq (elapsed : ℚ) (body : String) (d : RespData) :
    chat_with_industrial_ai elapsed (.response 200 body (.ok d)) =
      .ok { content := chatAnswer d
            usage := { prompt_tokens := (d.usage.getD defaultRawUsage).prompt_tokens.getD 0
                       completion_tokens := (d.usage.getD defaultRawUsage).completion_tokens.getD 0
                       total_tokens := chatTotal d
                       latency := round2 elapsed
                       throughput :=
                         if 0 < round2 elapsed then
                           round2 ((chatTotal d : ℚ) / round2 elapsed)
                         else 0 } } := rfl

/-! ## Claims -/

/-- C1 (counterexample): a non-200 response does NOT fail with an error
kind distinct from the connection-failure kind.  The 500-status outcome is
the very same `RuntimeError` value — message and all — as a transport
failure whose cause string happens to be `"API Error: boom"`: the non-200
`raise` is caught by the function's own blanket `except` and re-wrapped
with the `"Connection failed: "` prefix, so no distinct upstream error
reaches the caller. -/
theorem C1_upstream_error_cex :
    chat_with_industrial_ai 1 (.response 500 "boom" (.ok ⟨none, none, none⟩)) =
      .error "Connection failed: API Error: boom" ∧
    chat_with_industrial_ai 1 (.failure "API Error: boom") =
      .error "Connection failed: API Error: boom" ∧
    chat_with_industrial_ai 1 (.response 500 "boom" (.ok ⟨none, none, none⟩)) =
      chat_with_industrial_ai 1 (.failure "API Error: boom") ∧
    chat_with_industrial_ai 1 (.response 500 "boom" (.ok ⟨none, none, none⟩)) ≠
      .error "API Error: boom" := by
  refine ⟨rfl, rfl, rfl, fun h => absurd (Except.error.inj h) (by decide)⟩

/-- C1 (amended): on a non-success status the call fails with a
`RuntimeError` whose message is `"Connection failed: API Error: "`
followed by the raw response body — the raw body is carried, but the
in-function upstream error is re-wrapped by the same `"Connection
failed: "` handler used for transport-level and response-parsing
failures, so it is distinguishable from those only by the `"API Error:"`
marker inside the message, not by a distinct error kind. -/
theorem C1_upstream_error_wrapped (elapsed : ℚ) (status : ℕ) (body : String)
    (pdata : Except String RespData) (cause : String) (hst : status ≠ 200) :
    chat_with_industrial_ai elapsed (.response status body pdata) =
      .error ("Connection failed: " ++ ("API Error: " ++ body)) ∧
    chat_with_industrial_ai elapsed (.failure cause) =
      .error ("Connection failed: " ++ cause) := by
  constructor
  · simp [chat_with_industrial_ai, hst]
  · rfl

/-- Witness for C1 (amended) at a concrete 500 response. -/
theorem C1_upstream_error_wrapped_witness :
    chat_with_industrial_ai 1 (.response 500 "bad request" (.ok ⟨none, none, none⟩)) =
      .error ("Connection failed: " ++ ("API Error: " ++ "bad request")) ∧
    chat_with_industrial_ai 1 (.failure "timeout") =
      .error ("Connection failed: " ++ "timeout") :=
  C1_upstream_error_wrapped 1 500 "bad request" (.ok ⟨none, none, none⟩) "timeout"
    (by decide)

/-- C2 (counterexample): with all three mutable columns absent, only
`update_session_mode` adds the column and retries; `update_session_image`
swallows the error leaving the table untouched (no column added, no
retry), and `update_session_title` propagates the `OperationalError`
instead of handling it. -/
theorem C2_schema_evolution_cex :
    (update_session_mode tblOld "s" "Safety Audit").2 = .columnAddedThenUpdated ∧
    update_session_image tblOld "s" "img.png" = (tblOld, .gaveUpSilently) ∧
    (update_session_image tblOld "s" "img.png").2 ≠ .columnAddedThenUpdated ∧
    update_session_title tblOld "s" "T" =
      .error "sqlite3.OperationalError: no such column: title" := by
  refine ⟨rfl, rfl, by decide, rfl⟩

/-- C2 (amended): only `update_session_mode` transparently adds the
missing column and retries the update once; `update_session_image`
catches the failure and gives up silently without adding the column or
retrying (the table is unchanged); `update_session_title` performs no
handling at all, so the storage error propagates to the caller.  When the
expected column exists, all three simply update. -/
theorem C2_schema_evolution (t : SessTable) (sid mode path title : String) :
    (t.hasModeCol = false →
      update_session_mode t sid mode =
        ({ t with
           hasModeCol := true
           rows := (t.rows.map (fun s => { s with mode := "General Analysis" })).map
             (fun s => if s.id = sid then { s with mode := mode } else s) },
         .columnAddedThenUpdated)) ∧
    (t.hasImageCol = false →
      update_session_image t sid path = (t, .gaveUpSilently)) ∧
    (t.hasTitleCol = false →
      update_session_title t sid title =
        .error "sqlite3.OperationalError: no such column: title") ∧
    (t.hasModeCol = true → (update_session_mode t sid mode).2 = .updated) ∧
    (t.hasImageCol = true → (update_session_image t sid path).2 = .updated) ∧
    (t.hasTitleCol = true →
      update_session_title t sid title =
        .ok ({ t with rows := setTitleRows t.rows sid title }, .updated)) := by
  refine ⟨?_, ?_, ?_, ?_, ?_, ?_⟩ <;> intro h <;>
    simp [update_session_mode, update_session_image, update_session_title, h]

/-- Witness for C2 (amended) on the old-format table. -/
theorem C2_schema_evolution_witness :
    (update_session_mode tblOld "s" "Defect Inspection").2 =
      .columnAddedThenUpdated ∧
    update_session_image tblOld "s" "img.png" = (tblOld, .gaveUpSilently) ∧
    update_session_title tblOld "s" "T" =
      .error "sqlite3.OperationalError: no such column: title" :=
  ⟨by rw [(C2_schema_evolution tblOld "s" "Defect Inspection" "img.png" "T").1 rfl],
   (C2_schema_evolution tblOld "s" "Defect Inspection" "img.png" "T").2.1 rfl,
   (C2_schema_evolution tblOld "s" "Defect Inspection" "img.png" "T").2.2.1 rfl⟩

/-- C3 (counterexample): when the first user message's content is exactly
the sentinel `"New Inspection"`, the auto-rename sets the title to the
same sentinel, so appending a second user message DOES rename the title
again — contradicting the claim that a second user message never renames
it. -/
theorem C3_auto_rename_cex :
    ((get_session_meta (add_message dbS "s" "user" "New Inspection" none) "s").map
        Session.title = some "New Inspection") ∧
    ((get_session_meta
        (add_message (add_message dbS "s" "user" "New Inspection" none)
          "s" "user" "second message" none) "s").map
        Session.title = some "second message") ∧
    ("second message" : String) ≠ "New Inspection" := by
  refine ⟨rfl, rfl, by decide⟩

/-- C3 (amended): on a session whose title is the default sentinel,
appending a user message renames the title to the first 30 characters of
the content plus an ellipsis when the content exceeds 30 characters (the
content itself otherwise), and a second user message does not rename it
again — provided the title written by the first message is not itself the
sentinel `"New Inspection"` (i.e. the first content is not exactly the
sentinel). -/
theorem C3_auto_rename (db : DB) (sid c1 c2 : String) (u1 u2 : Option UsageDict)
    (hdef : ∀ s ∈ db.sessions, s.id = sid → s.title = "New Inspection")
    (hne : (if c1.length > 30 then c1.take 30 ++ "..." else c1) ≠ "New Inspection") :
    (∀ s ∈ (add_message db sid "user" c1 u1).sessions, s.id = sid →
      s.title = (if c1.length > 30 then c1.take 30 ++ "..." else c1)) ∧
    (∀ s ∈ (add_message (add_message db sid "user" c1 u1) sid "user" c2 u2).sessions,
      s.id = sid →
      s.title = (if c1.length > 30 then c1.take 30 ++ "..." else c1)) := by
  have hauto : autoTitle c1 = (if c1.length > 30 then c1.take 30 ++ "..." else c1) := rfl
  rw [← hauto]
  constructor
  · intro s hs hid
    rw [add_message_sessions_user] at hs
    obtain ⟨s0, hs0, rfl⟩ := List.mem_map.mp hs
    by_cases hc : s0.id = sid ∧ s0.title = "New Inspection"
    · rw [if_pos hc]
    · rw [if_neg hc] at hid ⊢
      exact absurd ⟨hid, hdef s0 hs0 hid⟩ hc
  · intro s hs hid
    rw [add_message_sessions_user, add_message_sessions_user, List.map_map] at hs
    obtain ⟨s0, hs0, rfl⟩ := List.mem_map.mp hs
    simp only [Function.comp_apply] at hid ⊢
    by_cases hc : s0.id = sid ∧ s0.title = "New Inspection"
    · rw [if_pos hc] at hid ⊢
      rw [if_neg (fun hbad => hne (hauto ▸ hbad.2))]
    · rw [if_neg hc] at hid ⊢
      rw [if_neg hc] at hid ⊢
      exact absurd ⟨hid, hdef s0 hs0 hid⟩ hc

set_option maxRecDepth 10000 in
/-- Witness for C3 (amended): the spec's own 52-character example message,
then a second user message; the title becomes the 30-character prefix plus
ellipsis and stays there. -/
theorem C3_auto_rename_witness :
    ((∀ s ∈ (add_message dbS "s" "user"
        "Check the bearing for wear please, it squeaks loudly" none).sessions,
      s.id = "s" →
      s.title = (if ("Check the bearing for wear please, it squeaks loudly" : String).length > 30
        then ("Check the bearing for wear please, it squeaks loudly" : String).take 30 ++ "..."
        else "Check the bearing for wear please, it squeaks loudly")) ∧
    (∀ s ∈ (add_message (add_message dbS "s" "user"
        "Check the bearing for wear please, it squeaks loudly" none)
        "s" "user" "And the shaft?" none).sessions,
      s.id = "s" →
      s.title = (if ("Check the bearing for wear please, it squeaks loudly" : String).length > 30
        then ("Check the bearing for wear please, it squeaks loudly" : String).take 30 ++ "..."
        else "Check the bearing for wear please, it squeaks loudly"))) :=
  C3_auto_rename dbS "s" "Check the bearing for wear please, it squeaks loudly"
    "And the shaft?" none none (by decide) (by decide)

/-- C6: calling `create_session` twice with the same id raises no error,
leaves exactly one Session record with that id, and the second call is a
no-op: the whole store, hence every field of the existing record, is
unchanged. -/
theorem C6_create_session_idempotent (db : DB) (sid t1 m1 t2 m2 : String)
    (h : ∀ s ∈ db.sessions, s.id ≠ sid) :
    create_session (create_session db sid t1 m1) sid t2 m2 =
      create_session db sid t1 m1 ∧
    ((create_session (create_session db sid t1 m1) sid t2 m2).sessions.filter
        (fun s => s.id == sid)).length = 1 := by
  have hany : db.sessions.any (fun s => s.id == sid) = false := by
    rw [List.any_eq_false]
    intro s hs
    simpa using h s hs
  have hfil : db.sessions.filter (fun s => s.id == sid) = [] := by
    rw [List.filter_eq_nil_iff]
    intro s hs
    simpa using h s hs
  constructor
  · simp [create_session, hany]
  · simp [create_session, hany, List.filter_append, hfil]

/-- Witness for C6 at the freshly initialised store. -/
theorem C6_create_session_idempotent_witness :
    create_session (create_session emptyDB "s1" "New Inspection" "General Analysis")
        "s1" "Renamed" "Safety Audit" =
      create_session emptyDB "s1" "New Inspection" "General Analysis" ∧
    ((create_session (create_session emptyDB "s1" "New Inspection" "General Analysis")
        "s1" "Renamed" "Safety Audit").sessions.filter
        (fun s => s.id == "s1")).length = 1 :=
  C6_create_session_idempotent emptyDB "s1" "New Inspection" "General Analysis"
    "Renamed" "Safety Audit" (by decide)

/-- C9: `get_all_sessions` lists sessions newest first (sorted by
descending `created_at`), and every returned session has at least one
message, or an image, or a non-default title — never an untouched
default-titled, imageless, messageless session. -/
theorem C9_get_all_sessions_filtered_newest_first (db : DB) :
    (get_all_sessions db).Sorted (fun a b => b.created_at ≤ a.created_at) ∧
    ∀ s ∈ get_all_sessions db,
      (∃ m ∈ db.messages, m.session_id = s.id) ∨
      s.image_path.isSome = true ∨ s.title ≠ "New Inspection" := by
  constructor
  · exact List.sorted_insertionSort _ _
  · intro s hs
    unfold get_all_sessions at hs
    rw [List.mem_insertionSort] at hs
    obtain ⟨-, hp⟩ := List.mem_filter.mp hs
    simp only [Bool.or_eq_true, List.any_eq_true, beq_iff_eq, bne_iff_ne, ne_eq] at hp
    rcases hp with (⟨m, hm, he⟩ | h) | h
    · exact Or.inl ⟨m, hm, he⟩
    · exact Or.inr (Or.inl h)
    · exact Or.inr (Or.inr h)

/-- Witness for C9: in `dbAB`, the session with an image is returned and
indeed has an image. -/
theorem C9_get_all_sessions_witness :
    (∃ m ∈ dbAB.messages, m.session_id = sessB.id) ∨
    sessB.image_path.isSome = true ∨ sessB.title ≠ "New Inspection" :=
  (C9_get_all_sessions_filtered_newest_first dbAB).2 sessB (by decide)

/-- C4: a message appended with a given `usage` structure, when read back
via `get_session_history` for the same session, yields a usage value whose
five numeric fields (`prompt_tokens`, `completion_tokens`, `total_tokens`,
`latency`, `throughput`) equal the stored ones. -/
theorem C4_usage_roundtrip (db : DB) (sid role content : String)
    (m : UsageMetrics) (hwf : WellFormed db) :
    get_session_history (add_message db sid role content (some (usageToDict m))) sid =
      get_session_history db sid ++ [⟨role, content, some (usageToDict m)⟩] ∧
    (usageToDict m).lookup "prompt_tokens" = some (m.prompt_tokens : ℚ) ∧
    (usageToDict m).lookup "completion_tokens" = some (m.completion_tokens : ℚ) ∧
    (usageToDict m).lookup "total_tokens" = some (m.total_tokens : ℚ) ∧
    (usageToDict m).lookup "latency" = some m.latency ∧
    (usageToDict m).lookup "throughput" = some m.throughput := by
  refine ⟨?_, rfl, rfl, rfl, rfl, rfl⟩
  simpa [normUsage, usageToDict] using
    get_session_history_add hwf sid role content (some (usageToDict m))

/-- Witness for C4 at a concrete store and metrics value. -/
theorem C4_usage_roundtrip_witness :
    get_session_history (add_message dbS "s" "assistant" "All good."
        (some (usageToDict um0))) "s" =
      get_session_history dbS "s" ++ [⟨"assistant", "All good.", some (usageToDict um0)⟩] ∧
    (usageToDict um0).lookup "prompt_tokens" = some (um0.prompt_tokens : ℚ) ∧
    (usageToDict um0).lookup "completion_tokens" = some (um0.completion_tokens : ℚ) ∧
    (usageToDict um0).lookup "total_tokens" = some (um0.total_tokens : ℚ) ∧
    (usageToDict um0).lookup "latency" = some um0.latency ∧
    (usageToDict um0).lookup "throughput" = some um0.throughput :=
  C4_usage_roundtrip dbS "s" "assistant" "All good." um0 (by decide)

/-- C5: on a successful call, the returned latency is the measured elapsed
seconds rounded to 2 decimals; the throughput is `total_tokens / latency`
rounded to 2 decimals when `latency > 0`, and `0` when `latency ≤ 0`; in
particular `total_tokens = 100` with elapsed 2.0 s gives throughput 50.0,
and elapsed 0 s gives throughput 0 with no division-by-zero fault. -/
theorem C5_latency_throughput (elapsed : ℚ) (body : String) (d : RespData)
    (r : ChatResponse)
    (hr : chat_with_industrial_ai elapsed (.response 200 body (.ok d)) = .ok r) :
    (r.usage.latency = round2 elapsed ∧
     (0 < r.usage.latency →
       r.usage.throughput = round2 ((r.usage.total_tokens : ℚ) / r.usage.latency)) ∧
     (r.usage.latency ≤ 0 → r.usage.throughput = 0)) ∧
    chat_with_industrial_ai 2 (.response 200 "" (.ok d100)) =
      .ok ⟨"OK", ⟨0, 0, 100, 2, 50⟩⟩ ∧
    chat_with_industrial_ai 0 (.response 200 "" (.ok d100)) =
      .ok ⟨"OK", ⟨0, 0, 100, 0, 0⟩⟩ := by
  have h2 : round2 2 = 2 := by
    norm_num [round2, roundHalfEven, Rat.num_ofNat, Rat.den_ofNat]
  have h0 : round2 0 = 0 := by norm_num [round2, roundHalfEven]
  have h50 : round2 50 = 50 := by
    norm_num [round2, roundHalfEven, Rat.num_ofNat, Rat.den_ofNat]
  refine ⟨?_, ?_, ?_⟩
  · rw [chat_success_eq] at hr
    obtain rfl : r = _ := (Except.ok.inj hr).symm
    refine ⟨rfl, fun hpos => ?_, fun hnonpos => ?_⟩
    · dsimp only at hpos ⊢
      rw [if_pos hpos]
    · dsimp only at hnonpos ⊢
      rw [if_neg (not_lt.mpr hnonpos)]
  · rw [chat_success_eq, h2, if_pos (by norm_num : (0:ℚ) < 2)]
    norm_num [chatAnswer, chatTotal, defaultRawUsage, d100, h50]
  · rw [chat_success_eq, h0, if_neg (by norm_num : ¬ (0:ℚ) < 0)]
    norm_num [chatAnswer, chatTotal, defaultRawUsage, d100]

/-- Witness for C5 at the concrete 200-response `d100` and elapsed 2 s. -/
theorem C5_latency_throughput_witness :
    (r100.usage.latency = round2 2 ∧
     (0 < r100.usage.latency →
       r100.usage.throughput = round2 ((r100.usage.total_tokens : ℚ) / r100.usage.latency)) ∧
     (r100.usage.latency ≤ 0 → r100.usage.throughput = 0)) ∧
    chat_with_industrial_ai 2 (.response 200 "" (.ok d100)) =
      .ok ⟨"OK", ⟨0, 0, 100, 2, 50⟩⟩ ∧
    chat_with_industrial_ai 0 (.response 200 "" (.ok d100)) =
      .ok ⟨"OK", ⟨0, 0, 100, 0, 0⟩⟩ :=
  C5_latency_throughput 2 "" d100 r100 (chat_success_eq 2 "" d100)

/-- C7: for any batch of messages appended to a session,
`get_session_history` returns exactly the prior history followed by those
messages in insertion order; the ids of the session's rows are strictly
increasing; and no previously stored message row is mutated (the old
`messages` relation is a prefix of the new one). -/
theorem C7_history_insertion_order (db : DB) (sid : String)
    (items : List (String × String × Option UsageDict)) (hwf : WellFormed db) :
    get_session_history (addAll db sid items) sid =
      get_session_history db sid ++
        items.map (fun x => ⟨x.1, x.2.1, normUsage x.2.2⟩) ∧
    List.Pairwise (· < ·)
      (((addAll db sid items).messages.filter
        (fun m => m.session_id == sid)).map Message.id) ∧
    db.messages <+: (addAll db sid items).messages :=
  ⟨addAll_history hwf sid items,
   (hwf.addAll sid items).filter_ids_increasing _,
   addAll_messages_prefix db sid items⟩

/-- Witness for C7: a user/assistant pair appended to the sample store. -/
theorem C7_history_insertion_order_witness :
    get_session_history (addAll dbS "s" items7) "s" =
      get_session_history dbS "s" ++
        items7.map (fun x => ⟨x.1, x.2.1, normUsage x.2.2⟩) ∧
    List.Pairwise (· < ·)
      (((addAll dbS "s" items7).messages.filter
        (fun m => m.session_id == "s")).map Message.id) ∧
    dbS.messages <+: (addAll dbS "s" items7).messages :=
  C7_history_insertion_order dbS "s" items7 (by decide)

/-- C8: with no active image, `submit` is a pure no-op apart from the
warning toast — nothing is appended anywhere; with an active image the
user message is persisted before the gateway call, and on gateway failure
the error is surfaced non-fatally while the store gains exactly the user
message and no assistant message. -/
theorem C8_submit_consistency (db : DB) (sid : String)
    (stMsgs : List HistoryEntry) (prompt : String)
    (gw : Except String ChatResponse) (hwf : WellFormed db) :
    submit db sid stMsgs none prompt gw = (db, stMsgs, .rejectedNoImage) ∧
    (∀ img e, gw = .error e →
      submit db sid stMsgs (some img) prompt gw =
        (add_message db sid "user" prompt none,
         stMsgs ++ [⟨"user", prompt, none⟩],
         .failed ("SYSTEM FAILURE: " ++ e)) ∧
      get_session_history (add_message db sid "user" prompt none) sid =
        get_session_history db sid ++ [⟨"user", prompt, none⟩]) := by
  refine ⟨rfl, fun img e he => ?_⟩
  subst he
  exact ⟨rfl,
    by simpa [normUsage] using get_session_history_add hwf sid "user" prompt none⟩

/-- Witness for C8: concrete rejected call and concrete failed gateway
call on the sample store. -/
theorem C8_submit_consistency_witness :
    submit dbS "s" [] none "Check this part" (.error "boom") =
      (dbS, [], .rejectedNoImage) ∧
    (submit dbS "s" [] (some "img.png") "Check this part" (.error "boom") =
      (add_message dbS "s" "user" "Check this part" none,
       [] ++ [⟨"user", "Check this part", none⟩],
       .failed ("SYSTEM FAILURE: " ++ "boom")) ∧
     get_session_history (add_message dbS "s" "user" "Check this part" none) "s" =
       get_session_history dbS "s" ++ [⟨"user", "Check this part", none⟩]) :=
  ⟨(C8_submit_consistency dbS "s" [] "Check this part" (.error "boom") (by decide)).1,
   (C8_submit_consistency dbS "s" [] "Check this part" (.error "boom") (by decide)).2
     "img.png" "boom" rfl⟩

/-- C10: `add_message` persists a usage record only when the passed
mapping is truthy: `None` and the empty dict `{}` both store NULL, and the
message reads back without a usage field; a non-empty mapping is stored
and reads back as passed. -/
theorem C10_usage_truthiness (db : DB) (sid role content : String)
    (hwf : WellFormed db) :
    get_session_history (add_message db sid role content none) sid =
      get_session_history db sid ++ [⟨role, content, none⟩] ∧
    get_session_history (add_message db sid role content (some [])) sid =
      get_session_history db sid ++ [⟨role, content, none⟩] ∧
    ∀ u : UsageDict, u ≠ [] →
      get_session_history (add_message db sid role content (some u)) sid =
        get_session_history db sid ++ [⟨role, content, some u⟩] := by
  refine ⟨?_, ?_, fun u hu => ?_⟩
  · simpa [normUsage] using get_session_history_add hwf sid role content none
  · simpa [normUsage] using get_session_history_add hwf sid role content (some [])
  · simpa [normUsage, hu] using get_session_history_add hwf sid role content (some u)

/-- Witness for C10 on the sample store, including a non-empty mapping. -/
theorem C10_usage_truthiness_witness :
    get_session_history (add_message dbS "s" "user" "hi" none) "s" =
      get_session_history dbS "s" ++ [⟨"user", "hi", none⟩] ∧
    get_session_history (add_message dbS "s" "user" "hi" (some [])) "s" =
      get_session_history dbS "s" ++ [⟨"user", "hi", none⟩] ∧
    get_session_history (add_message dbS "s" "user" "hi"
        (some [("total_tokens", 5)])) "s" =
      get_session_history dbS "s" ++ [⟨"user", "hi", some [("total_tokens", 5)]⟩] :=
  ⟨(C10_usage_truthiness dbS "s" "user" "hi" (by decide)).1,
   (C10_usage_truthiness dbS "s" "user" "hi" (by decide)).2.1,
   (C10_usage_truthiness dbS "s" "user" "hi" (by decide)).2.2
     [("total_tokens", 5)] (by decide)⟩

end DiagnostiQ
